import Mathlib

/-!
Shallow embedding of the MidStates weekly-report analytics core:
the spreadsheet extractor (`src/lib/parseExcel.ts`) and the insight
engine (`generateAutoInsights` in the insights page, `calculateInsights`
in the dashboard page).

Modelling conventions:
* a spreadsheet cell (`any` in the source) is a `CellVal`: a finite
  number, a string, or absent (missing / `undefined` / `null`);
* JavaScript double arithmetic is modelled over exact rationals, with an
  explicit `JsNum` type (finite rational, `Infinity`, `-Infinity`, `NaN`)
  wherever the source divides by a data-derived quantity, so that
  division-by-zero behaviour is captured faithfully (negative zero is not
  distinguished; rounding of finite doubles is idealised to exact
  rational arithmetic — no claim below depends on rounding);
* `Math.sqrt` is modelled by `Real.sqrt`;
* display-string builders (`Intl.NumberFormat`, `toFixed`) are abstracted
  to simple total renderings; no claim depends on their exact output.
-/

/-- One spreadsheet cell as produced by `sheet_to_json(..., {header: 1})`:
a finite number, a string, or absent (`undefined` / `null` / missing). -/
inductive CellVal where
  | empty : CellVal
  | num : ℚ → CellVal
  | str : String → CellVal
deriving DecidableEq

/-- JavaScript number results: a finite value (exact rational), the two
infinities, or `NaN`. -/
inductive JsNum where
  | num : ℚ → JsNum
  | posInf : JsNum
  | negInf : JsNum
  | nan : JsNum
deriving DecidableEq

/-- JavaScript subtraction on `JsNum` (IEEE-754 rules for the special
values; exact rational subtraction on finite values). -/
def jsub : JsNum → JsNum → JsNum
  | .nan, _ => .nan
  | _, .nan => .nan
  | .num a, .num b => .num (a - b)
  | .num _, .posInf => .negInf
  | .num _, .negInf => .posInf
  | .posInf, .num _ => .posInf
  | .posInf, .negInf => .posInf
  | .posInf, .posInf => .nan
  | .negInf, .num _ => .negInf
  | .negInf, .posInf => .negInf
  | .negInf, .negInf => .nan

/-- JavaScript multiplication on `JsNum`. -/
def jmul : JsNum → JsNum → JsNum
  | .nan, _ => .nan
  | _, .nan => .nan
  | .num a, .num b => .num (a * b)
  | .num a, .posInf => if a = 0 then .nan else if 0 < a then .posInf else .negInf
  | .posInf, .num b => if b = 0 then .nan else if 0 < b then .posInf else .negInf
  | .num a, .negInf => if a = 0 then .nan else if 0 < a then .negInf else .posInf
  | .negInf, .num b => if b = 0 then .nan else if 0 < b then .negInf else .posInf
  | .posInf, .posInf => .posInf
  | .posInf, .negInf => .negInf
  | .negInf, .posInf => .negInf
  | .negInf, .negInf => .posInf

/-- JavaScript division on `JsNum`: a nonzero finite value divided by 0
gives a signed infinity, `0 / 0` gives `NaN` (negative zero is not
modelled, so the sign of `0` is taken positive). -/
def jdiv : JsNum → JsNum → JsNum
  | .nan, _ => .nan
  | _, .nan => .nan
  | .num a, .num b =>
      if b = 0 then (if a = 0 then .nan else if 0 < a then .posInf else .negInf)
      else .num (a / b)
  | .num _, .posInf => .num 0
  | .num _, .negInf => .num 0
  | .posInf, .num b => if 0 ≤ b then .posInf else .negInf
  | .negInf, .num b => if 0 ≤ b then .negInf else .posInf
  | .posInf, .posInf => .nan
  | .posInf, .negInf => .nan
  | .negInf, .posInf => .nan
  | .negInf, .negInf => .nan

/-- JavaScript `Math.abs` on `JsNum`. -/
def jabs : JsNum → JsNum
  | .num a => .num |a|
  | .posInf => .posInf
  | .negInf => .posInf
  | .nan => .nan

/-- JavaScript strict `>` comparison on `JsNum`; any comparison with
`NaN` is `false`. -/
def jgt : JsNum → JsNum → Bool
  | .nan, _ => false
  | _, .nan => false
  | .num a, .num b => decide (b < a)
  | .num _, .posInf => false
  | .num _, .negInf => true
  | .posInf, .num _ => true
  | .posInf, .posInf => false
  | .posInf, .negInf => true
  | .negInf, _ => false

/-- Whether a `JsNum` is a finite number (`Number.isFinite`). -/
def jsFinite : JsNum → Bool
  | .num _ => true
  | _ => false

/-- Render a `JsNum` as text (models number-to-string conversion; the
exact digits of the finite case are abstracted). -/
def jsToString : JsNum → String
  | .num q => toString q
  | .posInf => "Infinity"
  | .negInf => "-Infinity"
  | .nan => "NaN"

/-- Accumulate a digit run into a natural number. -/
def digitsToNat (ds : List Char) : Nat :=
  ds.foldl (fun n c => n * 10 + (c.toNat - 48)) 0

/-- Whitespace characters skipped by `parseFloat` (model of `\s`). -/
def isWs (c : Char) : Bool :=
  c = ' ' || c = '\t' || c = '\n' || c = '\r'

/-- Model of JavaScript `parseFloat`: skip leading whitespace, optional
sign, then a decimal significand (digits, optional fraction); the result
is the longest numeric prefix, `none` when no digit is found (the `NaN`
case). Exponents are not modelled; no claim depends on them. -/
def jsParseFloat (s : String) : Option ℚ :=
  let cs := s.toList.dropWhile isWs
  let sgn : ℚ := match cs with
    | '-' :: _ => -1
    | _ => 1
  let cs2 := match cs with
    | '-' :: t => t
    | '+' :: t => t
    | _ => cs
  let intPart := cs2.takeWhile Char.isDigit
  let rest := cs2.dropWhile Char.isDigit
  let fracPart := match rest with
    | '.' :: t => t.takeWhile Char.isDigit
    | _ => []
  if intPart.isEmpty && fracPart.isEmpty then none
  else some (sgn * ((digitsToNat intPart : ℚ) +
    (digitsToNat fracPart : ℚ) / (10 : ℚ) ^ fracPart.length))

/-- The `safeNum` coercion of `parseRow` (`parseExcel.ts` lines 130-134):
`null`/`undefined`/`''` give 0; a number passes through; a string is
parsed with `parseFloat`, a `NaN` result giving 0. -/
def safeNum (v : CellVal) : ℚ :=
  match v with
  | .empty => 0
  | .num q => q
  | .str s =>
      if s = "" then 0
      else match jsParseFloat s with
        | some q => q
        | none => 0

/-- JavaScript `toString()` of a cell value; the absent case is mapped to
`""` (in the source an absent cell reaches `|| ''` via optional
chaining). Number rendering is abstracted to `toString` of the rational. -/
def cellToString (v : CellVal) : String :=
  match v with
  | .empty => ""
  | .num q => toString q
  | .str s => s

/-- JavaScript truthiness of a cell value: absent, `0` and `""` are
falsy. -/
def truthy (v : CellVal) : Bool :=
  match v with
  | .empty => false
  | .num q => decide (q ≠ 0)
  | .str s => decide (s ≠ "")

/-- Cell lookup `row[i]`: out-of-range indices give `undefined`
(modelled as `CellVal.empty`). -/
def cellAt (row : List CellVal) (i : Nat) : CellVal :=
  row.getD i .empty

/-- The `WeekData` record of `parseExcel.ts` (lines 3-40). -/
structure WeekData where
  fiscalYear : String
  periodType : String
  week : String
  status : String
  aoaChangePriorWeek : ℚ
  aoaChangePriorYear : ℚ
  customerChangePriorWeek : ℚ
  customerChangePriorYear : ℚ
  revenueChangePriorWeek : ℚ
  revenueChangePriorYear : ℚ
  gpChangePriorWeek : ℚ
  gpChangePriorYear : ℚ
  associatesOnAssignment : ℚ
  customersBilled : ℚ
  markupPercent : ℚ
  avgHourlyPayRate : ℚ
  billRatePerHour : ℚ
  profitPerHour : ℚ
  hoursPerAssociate : ℚ
  associateBilling : ℚ
  associateGrossProfit : ℚ
  associateGrossProfitPercent : ℚ
  feesRevenue : ℚ
  totalSales : ℚ
  grossProfit : ℚ
  grossProfitPercent : ℚ
  fullTimeEquivalent : ℚ
  staffExcludingBDM : ℚ
  associateGPperFTE : ℚ
  aoasPerFTE : ℚ
  hoursBilled : ℚ
  revenuePerClient : ℚ
  associateWages : ℚ
  conversionFees : ℚ
  permanentPlacementFees : ℚ
  quickHire : ℚ
deriving DecidableEq

/-- Row decoding, `parseRow` (`parseExcel.ts` lines 129-174): fixed
column indices, text fields via `toString() || ''`, numeric fields via
`safeNum`. -/
def parseRow (row : List CellVal) : WeekData :=
  { fiscalYear := cellToString (cellAt row 0)
    periodType := cellToString (cellAt row 1)
    week := cellToString (cellAt row 2)
    status := cellToString (cellAt row 3)
    aoaChangePriorWeek := safeNum (cellAt row 5)
    aoaChangePriorYear := safeNum (cellAt row 6)
    customerChangePriorWeek := safeNum (cellAt row 7)
    customerChangePriorYear := safeNum (cellAt row 8)
    revenueChangePriorWeek := safeNum (cellAt row 9)
    revenueChangePriorYear := safeNum (cellAt row 10)
    gpChangePriorWeek := safeNum (cellAt row 11)
    gpChangePriorYear := safeNum (cellAt row 12)
    associatesOnAssignment := safeNum (cellAt row 14)
    customersBilled := safeNum (cellAt row 15)
    markupPercent := safeNum (cellAt row 16)
    avgHourlyPayRate := safeNum (cellAt row 17)
    billRatePerHour := safeNum (cellAt row 18)
    profitPerHour := safeNum (cellAt row 19)
    hoursPerAssociate := safeNum (cellAt row 20)
    associateBilling := safeNum (cellAt row 22)
    associateGrossProfit := safeNum (cellAt row 23)
    associateGrossProfitPercent := safeNum (cellAt row 24)
    feesRevenue := safeNum (cellAt row 25)
    totalSales := safeNum (cellAt row 26)
    grossProfit := safeNum (cellAt row 27)
    grossProfitPercent := safeNum (cellAt row 28)
    fullTimeEquivalent := safeNum (cellAt row 30)
    staffExcludingBDM := safeNum (cellAt row 31)
    associateGPperFTE := safeNum (cellAt row 34)
    aoasPerFTE := safeNum (cellAt row 36)
    hoursBilled := safeNum (cellAt row 40)
    revenuePerClient := safeNum (cellAt row 41)
    associateWages := safeNum (cellAt row 42)
    conversionFees := safeNum (cellAt row 44)
    permanentPlacementFees := safeNum (cellAt row 45)
    quickHire := safeNum (cellAt row 46) }

/-- Whether the second character list is a leading prefix of the first
(model of JavaScript `String.startsWith`, over characters so that it
evaluates by kernel reduction). -/
def listStartsWith : List Char → List Char → Bool
  | _, [] => true
  | [], _ :: _ => false
  | c :: cs, p :: ps => c == p && listStartsWith cs ps

/-- Whether `pat` occurs as a contiguous run inside a character list. -/
def listContainsSub (pat : List Char) : List Char → Bool
  | [] => pat.isEmpty
  | c :: t => listStartsWith (c :: t) pat || listContainsSub pat t

/-- Substring containment test, model of JavaScript `String.includes`. -/
def strContains (s pat : String) : Bool :=
  listContainsSub pat.toList s.toList

/-- Optional-chained containment `v?.toString().includes(pat)`: `false`
when the cell is absent. -/
def optIncludes (v : CellVal) (pat : String) : Bool :=
  match v with
  | .empty => false
  | v => strContains (cellToString v) pat

/-- Row lookup `jsonData[i]` in a sheet grid. -/
def rowAt (sheet : List (List CellVal)) (i : Nat) : List CellVal :=
  sheet.getD i []

/-- Whether a grid row qualifies as a weekly row
(`row[2] && row[2].toString().startsWith('Week')`, `parseExcel.ts`
line 78). -/
def qualifiesWeekly (row : List CellVal) : Bool :=
  truthy (cellAt row 2)
    && listStartsWith (cellToString (cellAt row 2)).toList "Week".toList

/-- The weekly-row scan of `parseWeeklyReport` (lines 75-81): the loop
`for (let i = 8; i <= 20 && i < jsonData.length; i++)` pushing
`parseRow(row)` for each qualifying row, in order. -/
def weeklyOf (sheet : List (List CellVal)) : List WeekData :=
  ((List.range' 8 13).filter
      (fun i => decide (i < sheet.length) && qualifiesWeekly (rowAt sheet i))).map
    (fun i => parseRow (rowAt sheet i))

/-- The 13-week-average extraction (lines 83-90). -/
def thirteenOf (sheet : List (List CellVal)) : Option WeekData :=
  if 22 < sheet.length then
    if optIncludes (cellAt (rowAt sheet 22) 2) "13 Week Average" then
      some (parseRow (rowAt sheet 22))
    else none
  else none

/-- The YTD extraction (lines 92-99): label cell containing `"YTD"`, or
the period-type cell strictly equal to the string `'YTD'`. -/
def ytdOf (sheet : List (List CellVal)) : Option WeekData :=
  if 23 < sheet.length then
    if optIncludes (cellAt (rowAt sheet 23) 2) "YTD"
        || decide (cellAt (rowAt sheet 23) 1 = CellVal.str "YTD") then
      some (parseRow (rowAt sheet 23))
    else none
  else none

/-- The `SheetData` record (`parseExcel.ts` lines 42-48); the declared
`priorYearData` field is never populated by the source and is omitted. -/
structure SheetData where
  sheetName : String
  weeklyData : List WeekData
  thirteenWeekAverage : Option WeekData
  ytdData : Option WeekData
deriving DecidableEq

/-- Per-sheet extraction (body of the `forEach` over sheet names,
lines 69-107). -/
def parseSheet (name : String) (grid : List (List CellVal)) : SheetData :=
  { sheetName := name
    weeklyData := weeklyOf grid
    thirteenWeekAverage := thirteenOf grid
    ytdData := ytdOf grid }

/-- Separator accepted by the `[_\s]` character class of the week-number
pattern. -/
def isSepCh (c : Char) : Bool :=
  c = '_' || isWs c

/-- Attempt the pattern `Week[_\s](\d+)` (case-insensitive) at the head
of a character list; on success return the captured digit run. -/
def matchWeekAt (cs : List Char) : Option (List Char) :=
  match cs with
  | c1 :: c2 :: c3 :: c4 :: c5 :: rest =>
      if c1.toLower == 'w' && c2.toLower == 'e' && c3.toLower == 'e'
          && c4.toLower == 'k' && isSepCh c5 then
        let ds := rest.takeWhile Char.isDigit
        if ds.isEmpty then none else some ds
      else none
  | _ => none

/-- Leftmost match of the week-number pattern
(`file.name.match(/Week[_\s](\d+)/i)`, line 110). -/
def findWeekMatch : List Char → Option (List Char)
  | [] => none
  | c :: rest =>
      match matchWeekAt (c :: rest) with
      | some ds => some ds
      | none => findWeekMatch rest

/-- Week-number label from the file name (lines 109-111): the captured
digit run, or `"Unknown"` when the pattern does not occur. -/
def weekNumberOf (name : String) : String :=
  match findWeekMatch name.toList with
  | some ds => String.mk ds
  | none => "Unknown"

/-- The `ParsedReport` record (lines 50-55); the `uploadDate` wall-clock
field lies outside the pure model. -/
structure ParsedReport where
  fileName : String
  weekNumber : String
  sheets : List SheetData
deriving DecidableEq

/-- The extraction pipeline of `parseWeeklyReport` (lines 57-127) on a
decoded workbook: one `SheetData` per workbook sheet, in workbook order,
plus the file-name-derived week number. -/
def parseWeeklyReport (fileName : String)
    (workbook : List (String × List (List CellVal))) : ParsedReport :=
  { fileName := fileName
    weekNumber := weekNumberOf fileName
    sheets := workbook.map (fun p => parseSheet p.1 p.2) }

/-- Modelled display formatter: `formatCurrency` (an `Intl.NumberFormat`
USD rendering) abstracted to a simple total rendering; no claim depends
on its digits. -/
def formatCurrency (q : ℚ) : String := "$" ++ toString q

/-- Modelled display formatter for percentages. -/
def formatPercent (q : ℚ) : String := toString q ++ "%"

/-- Modelled display formatter for plain numbers. -/
def formatNumber (q : ℚ) : String := toString q

/-- Modelled display formatter for a possibly non-finite value. -/
def formatCurrencyJs (x : JsNum) : String := "$" ++ jsToString x

/-- Finding classification (`'positive' | 'negative' | 'neutral'`,
part_000 line 25). -/
inductive InsightType where
  | positive : InsightType
  | negative : InsightType
  | neutral : InsightType
deriving DecidableEq

/-- The `Insight` record of the insights page (part_000 lines 24-30). -/
structure Insight where
  type : InsightType
  title : String
  description : String
  metric : Option String
  value : Option String
deriving DecidableEq

/-- Revenue per associate-on-assignment
(`totalSales / associatesOnAssignment`, part_000 lines 131-132). -/
def revPerAOA (w : WeekData) : JsNum :=
  jdiv (.num w.totalSales) (.num w.associatesOnAssignment)

/-- The automatic finding generator `generateAutoInsights`
(part_000 lines 84-146): with fewer than two weekly records the result
is empty; otherwise up to four findings in the fixed order revenue
trend, margin movement, staffing change, productivity shift. -/
def generateAutoInsights (sheet : SheetData) : List Insight :=
  match sheet.weeklyData with
  | latestWeek :: previousWeek :: _ =>
      let revChange : JsNum :=
        jmul (jdiv (.num (latestWeek.totalSales - previousWeek.totalSales))
          (.num previousWeek.totalSales)) (.num 100)
      let ins1 : List Insight :=
        if jgt (jabs revChange) (.num 5) then
          [{ type := if jgt revChange (.num 0) then .positive else .negative
             title := if jgt revChange (.num 0) then "Revenue Growth" else "Revenue Decline"
             description := "Total sales "
               ++ (if jgt revChange (.num 0) then "increased" else "decreased")
               ++ " by " ++ jsToString (jabs revChange) ++ "% week over week"
             metric := some "Revenue"
             value := some (formatCurrency latestWeek.totalSales) }]
        else []
      let gpChange : ℚ :=
        (latestWeek.grossProfitPercent - previousWeek.grossProfitPercent) * 100
      let ins2 : List Insight :=
        if |gpChange| > 0.5 then
          [{ type := if gpChange > 0 then .positive else .negative
             title := "Margin Movement"
             description := "Gross profit margin "
               ++ (if gpChange > 0 then "improved" else "declined")
               ++ " by " ++ toString |gpChange| ++ " percentage points"
             metric := some "GP%"
             value := some (formatPercent latestWeek.grossProfitPercent) }]
        else []
      let aoaChange : ℚ :=
        latestWeek.associatesOnAssignment - previousWeek.associatesOnAssignment
      let ins3 : List Insight :=
        if |aoaChange| > 20 then
          [{ type := if aoaChange > 0 then .positive else .negative
             title := "Staffing Changes"
             description := "Associates on assignment "
               ++ (if aoaChange > 0 then "increased" else "decreased")
               ++ " by " ++ toString |aoaChange| ++ " positions"
             metric := some "AOA"
             value := some (formatNumber latestWeek.associatesOnAssignment) }]
        else []
      let efficiencyChange : JsNum :=
        jmul (jdiv (jsub (revPerAOA latestWeek) (revPerAOA previousWeek))
          (revPerAOA previousWeek)) (.num 100)
      let ins4 : List Insight :=
        if jgt (jabs efficiencyChange) (.num 5) then
          [{ type := if jgt efficiencyChange (.num 0) then .positive else .neutral
             title := "Productivity Shift"
             description := "Revenue per associate "
               ++ (if jgt efficiencyChange (.num 0) then "improved" else "declined")
               ++ " by " ++ jsToString (jabs efficiencyChange) ++ "%"
             metric := some "Rev/AOA"
             value := some (formatCurrencyJs (revPerAOA latestWeek)) }]
        else []
      ins1 ++ ins2 ++ ins3 ++ ins4
  | _ => []

/-- The charting window `weeklyData.slice(0, 13).reverse()` (dashboard
page line 624). -/
def trendOf (sheet : SheetData) : List WeekData :=
  (sheet.weeklyData.take 13).reverse

/-- Mean of `totalSales` over the trend window (dashboard line 651). -/
def avgRevenueOf (sheet : SheetData) : ℚ :=
  ((trendOf sheet).map (fun w => w.totalSales)).sum / ((trendOf sheet).length : ℚ)

/-- Population variance of `totalSales` over the trend window (dashboard
line 652). -/
def varianceRevenueOf (sheet : SheetData) : ℚ :=
  ((trendOf sheet).map
      (fun w => (w.totalSales - avgRevenueOf sheet) ^ 2)).sum
    / ((trendOf sheet).length : ℚ)

/-- The derived scalar metrics object returned by `calculateInsights`
(dashboard lines 656-666); the mean and population variance of the
trend window are carried as fields, and `volatility`, which needs a real
square root, is split off below. -/
structure DeepInsights where
  revenueGrowthRate : JsNum
  yoyRevenueChange : ℚ
  yoyGPChange : ℚ
  yoyAOAChange : ℚ
  revenuePerFTE : ℚ
  gpPerFTE : ℚ
  vsAvgRevenue : JsNum
  vsAvgGP : ℚ
  avgRevenue : ℚ
  varianceRevenue : ℚ
deriving DecidableEq

/-- The metric computation `calculateInsights` (dashboard lines
621-667): `null` (here `none`) when no latest week exists; the
week-over-week and vs-average percent changes are guarded only on the
presence of the previous week / average record, not on their value. -/
def calculateInsights (sheet : SheetData) : Option DeepInsights :=
  match sheet.weeklyData with
  | [] => none
  | latestWeek :: rest =>
      let revenueGrowthRate : JsNum :=
        match rest with
        | previousWeek :: _ =>
            jmul (jdiv (.num (latestWeek.totalSales - previousWeek.totalSales))
              (.num previousWeek.totalSales)) (.num 100)
        | [] => .num 0
      let revenuePerFTE : ℚ :=
        if 0 < latestWeek.fullTimeEquivalent then
          latestWeek.totalSales / latestWeek.fullTimeEquivalent
        else 0
      let vsAvgRevenue : JsNum :=
        match sheet.thirteenWeekAverage with
        | some avg =>
            jmul (jdiv (.num (latestWeek.totalSales - avg.totalSales))
              (.num avg.totalSales)) (.num 100)
        | none => .num 0
      let vsAvgGP : ℚ :=
        match sheet.thirteenWeekAverage with
        | some avg => (latestWeek.grossProfitPercent - avg.grossProfitPercent) * 100
        | none => 0
      some
        { revenueGrowthRate := revenueGrowthRate
          yoyRevenueChange := latestWeek.revenueChangePriorYear
          yoyGPChange := latestWeek.gpChangePriorYear
          yoyAOAChange := latestWeek.aoaChangePriorYear
          revenuePerFTE := revenuePerFTE
          gpPerFTE := latestWeek.associateGPperFTE
          vsAvgRevenue := vsAvgRevenue
          vsAvgGP := vsAvgGP
          avgRevenue := avgRevenueOf sheet
          varianceRevenue := varianceRevenueOf sheet }

/-- The volatility metric (dashboard lines 650-654):
`avgRevenue > 0 ? (stdDev / avgRevenue) * 100 : 0`, with `Math.sqrt`
modelled by `Real.sqrt`; like the rest of `calculateInsights` it is
only produced when a latest week exists (0 otherwise). -/
noncomputable def volatility (sheet : SheetData) : ℝ :=
  if sheet.weeklyData.isEmpty then 0
  else if 0 < avgRevenueOf sheet then
    Real.sqrt (varianceRevenueOf sheet) / (avgRevenueOf sheet : ℝ) * 100
  else 0

/-! Helper lemmas on the JavaScript arithmetic model. -/

theorem jdiv_num_num (a b : ℚ) (hb : b ≠ 0) :
    jdiv (.num a) (.num b) = .num (a / b) := by
  simp [jdiv, hb]

theorem jmul_num_num (a b : ℚ) : jmul (.num a) (.num b) = .num (a * b) := rfl

theorem jsub_num_num (a b : ℚ) : jsub (.num a) (.num b) = .num (a - b) := rfl

theorem jabs_num (a : ℚ) : jabs (.num a) = .num |a| := rfl

theorem jgt_num_num (a b : ℚ) : jgt (.num a) (.num b) = decide (b < a) := rfl

/-- A cell that is missing, blank, or whose text does not parse as a
number: exactly the cells the spec calls defaulting cells for numeric
fields. -/
def badNum (v : CellVal) : Bool :=
  match v with
  | .empty => true
  | .num _ => false
  | .str s => s == "" || (jsParseFloat s).isNone

theorem safeNum_of_bad (v : CellVal) (h : badNum v = true) : safeNum v = 0 := by
  cases v with
  | empty => rfl
  | num q => simp [badNum] at h
  | str s =>
      simp only [badNum, Bool.or_eq_true, beq_iff_eq, Option.isNone_iff_eq_none] at h
      rcases h with h | h
      · simp [safeNum, h]
      · by_cases hs : s = ""
        · simp [safeNum, hs]
        · simp [safeNum, hs, h]

/-- The 32 numeric fields of a decoded record, in declaration order. -/
def numFieldAt (w : WeekData) : Nat → ℚ
  | 0 => w.aoaChangePriorWeek
  | 1 => w.aoaChangePriorYear
  | 2 => w.customerChangePriorWeek
  | 3 => w.customerChangePriorYear
  | 4 => w.revenueChangePriorWeek
  | 5 => w.revenueChangePriorYear
  | 6 => w.gpChangePriorWeek
  | 7 => w.gpChangePriorYear
  | 8 => w.associatesOnAssignment
  | 9 => w.customersBilled
  | 10 => w.markupPercent
  | 11 => w.avgHourlyPayRate
  | 12 => w.billRatePerHour
  | 13 => w.profitPerHour
  | 14 => w.hoursPerAssociate
  | 15 => w.associateBilling
  | 16 => w.associateGrossProfit
  | 17 => w.associateGrossProfitPercent
  | 18 => w.feesRevenue
  | 19 => w.totalSales
  | 20 => w.grossProfit
  | 21 => w.grossProfitPercent
  | 22 => w.fullTimeEquivalent
  | 23 => w.staffExcludingBDM
  | 24 => w.associateGPperFTE
  | 25 => w.aoasPerFTE
  | 26 => w.hoursBilled
  | 27 => w.revenuePerClient
  | 28 => w.associateWages
  | 29 => w.conversionFees
  | 30 => w.permanentPlacementFees
  | _ => w.quickHire

/-- Source-column index feeding the numeric field of the same position
in `numFieldAt` (the column map of `parseRow`). -/
def numIdxAt : Nat → Nat
  | 0 => 5
  | 1 => 6
  | 2 => 7
  | 3 => 8
  | 4 => 9
  | 5 => 10
  | 6 => 11
  | 7 => 12
  | 8 => 14
  | 9 => 15
  | 10 => 16
  | 11 => 17
  | 12 => 18
  | 13 => 19
  | 14 => 20
  | 15 => 22
  | 16 => 23
  | 17 => 24
  | 18 => 25
  | 19 => 26
  | 20 => 27
  | 21 => 28
  | 22 => 30
  | 23 => 31
  | 24 => 34
  | 25 => 36
  | 26 => 40
  | 27 => 41
  | 28 => 42
  | 29 => 44
  | 30 => 45
  | _ => 46

/-- The 4 text fields of a decoded record; their source columns are
0, 1, 2, 3 in the same order. -/
def textFieldAt (w : WeekData) : Nat → String
  | 0 => w.fiscalYear
  | 1 => w.periodType
  | 2 => w.week
  | _ => w.status

/-- C2: on every decoded source row, each numeric field whose source
cell is missing, blank, null/undefined, or not parseable as a number is
exactly 0 (decoding is total, so it never throws and never yields
NaN/null), and each text field whose source cell is absent is the empty
string. -/
theorem parseRow_default_coercion :
    (∀ (row : List CellVal) (k : Nat), k < 32 →
      badNum (cellAt row (numIdxAt k)) = true →
      numFieldAt (parseRow row) k = 0) ∧
    (∀ (row : List CellVal) (j : Nat), j < 4 →
      cellAt row j = CellVal.empty →
      textFieldAt (parseRow row) j = "") := by
  constructor
  · intro row k hk hb
    interval_cases k <;> exact safeNum_of_bad _ hb
  · intro row j hj he
    interval_cases j <;>
      · show cellToString _ = ""
        rw [he]
        rfl

/-- Closed instance of `parseRow_default_coercion`: the empty row has a
bad cell at every numeric column and an absent cell at every text
column, and decodes to 0 / `""` there. -/
theorem parseRow_default_coercion_witness :
    (badNum (cellAt [] (numIdxAt 19)) = true ∧
      numFieldAt (parseRow []) 19 = 0) ∧
    (cellAt [] 2 = CellVal.empty ∧ textFieldAt (parseRow []) 2 = "") :=
  ⟨⟨by decide, parseRow_default_coercion.1 [] 19 (by decide) (by decide)⟩,
   ⟨rfl, parseRow_default_coercion.2 [] 2 (by decide) rfl⟩⟩

/-- Example weekly-looking row: its week-label cell (column 2) starts
with `"Week"`. -/
def weekRowEx : List CellVal := [CellVal.empty, CellVal.empty, CellVal.str "Week 30"]

/-- Sheet whose only weekly-looking row sits at grid row 21, just past
the scan window. -/
def sheetPastWindow : List (List CellVal) :=
  List.replicate 21 ([] : List CellVal) ++ [weekRowEx]

/-- Sheet with weekly-looking rows at grid rows 8 and 20, the two edges
of the scan window. -/
def sheetWindowEdges : List (List CellVal) :=
  List.replicate 8 ([] : List CellVal) ++ [weekRowEx]
    ++ List.replicate 11 ([] : List CellVal) ++ [weekRowEx]

/-- C3: a grid row is decoded into the weekly sequence exactly when its
0-indexed row number lies in 8..20 and its column-2 cell is present with
text starting with `"Week"`, qualifying rows being kept in grid order;
a weekly-looking row at grid row 21 is not included while rows at grid
rows 8 and 20 are. -/
theorem weekly_row_window :
    (∀ sheet : List (List CellVal),
      weeklyOf sheet =
        ((List.range 21).filter
            (fun i => decide (8 ≤ i) && qualifiesWeekly (rowAt sheet i))).map
          (fun i => parseRow (rowAt sheet i))) ∧
    weeklyOf sheetPastWindow = [] ∧
    weeklyOf sheetWindowEdges = [parseRow weekRowEx, parseRow weekRowEx] := by
  refine ⟨fun sheet => ?_, by decide, by decide⟩
  have h1 : ∀ i ∈ List.range' 8 13,
      (decide (i < sheet.length) && qualifiesWeekly (rowAt sheet i))
        = qualifiesWeekly (rowAt sheet i) := by
    intro i _
    rcases Nat.lt_or_ge i sheet.length with h | h
    · simp [h]
    · have hrow : rowAt sheet i = [] := by
        have h2 : sheet[i]? = none := List.getElem?_eq_none (by omega)
        simp [rowAt, List.getD, h2]
      have hq : qualifiesWeekly (rowAt sheet i) = false := by rw [hrow]; rfl
      simp [hq, Nat.not_lt.mpr h]
  have h2 : List.range 21 = List.range' 0 8 ++ List.range' 8 13 := by decide
  have h3 : (List.range' 0 8).filter
      (fun i => decide (8 ≤ i) && qualifiesWeekly (rowAt sheet i)) = [] := by
    have hf : ∀ i ∈ List.range' 0 8,
        (decide (8 ≤ i) && qualifiesWeekly (rowAt sheet i)) = false := by
      intro i hi
      have hm := List.mem_range'_1.mp hi
      have : ¬ 8 ≤ i := by omega
      simp [this]
    rw [List.filter_congr hf, List.filter_false]
  have h4 : ∀ i ∈ List.range' 8 13,
      (decide (8 ≤ i) && qualifiesWeekly (rowAt sheet i))
        = qualifiesWeekly (rowAt sheet i) := by
    intro i hi
    have hm := List.mem_range'_1.mp hi
    have : 8 ≤ i := hm.1
    simp [this]
  unfold weeklyOf
  rw [List.filter_congr h1, h2, List.filter_append, h3, List.nil_append,
    List.filter_congr h4]

/-- C10: every sheet's extracted weekly sequence has at most 13 records,
the scan window covering exactly the 13 grid rows 8..20. -/
theorem weekly_at_most_13 (sheet : List (List CellVal)) :
    (weeklyOf sheet).length ≤ 13 := by
  unfold weeklyOf
  rw [List.length_map]
  calc ((List.range' 8 13).filter _).length
      ≤ (List.range' 8 13).length := List.length_filter_le _ _
    _ = 13 := by simp

theorem optIncludes_iff (v : CellVal) (pat : String) :
    optIncludes v pat = true ↔
      v ≠ CellVal.empty ∧ strContains (cellToString v) pat = true := by
  cases v <;> simp [optIncludes]

/-- Example 13-week-average row. -/
def avgRowEx : List CellVal :=
  [CellVal.empty, CellVal.str "13 Week", CellVal.str "13 Week Average"]

/-- Sheet whose grid row 22 is the example average row. -/
def sheetAvgEx : List (List CellVal) :=
  List.replicate 22 ([] : List CellVal) ++ [avgRowEx]

/-- Example YTD row whose label cell omits `"YTD"` while the period-type
cell equals exactly `"YTD"`. -/
def ytdColRowEx : List CellVal :=
  [CellVal.empty, CellVal.str "YTD", CellVal.str "Total Year"]

/-- Sheet whose grid row 23 is the example YTD row. -/
def sheetYtdColEx : List (List CellVal) :=
  List.replicate 23 ([] : List CellVal) ++ [ytdColRowEx]

/-- C4: the 13-week-average field is set exactly when grid row 22 exists
and its column-2 cell is present with text containing
`"13 Week Average"`; the YTD field is set exactly when grid row 23
exists and either its column-2 cell is present with text containing
`"YTD"` or its column-1 cell equals the string `"YTD"`; in each positive
case the field holds the decoded row, otherwise it is unset.  The closed
conjuncts exercise the average row and the YTD-via-period-type row whose
label omits `"YTD"`. -/
theorem average_and_ytd_rows :
    (∀ sheet : List (List CellVal),
      thirteenOf sheet =
        if 22 < sheet.length ∧ cellAt (rowAt sheet 22) 2 ≠ CellVal.empty
            ∧ strContains (cellToString (cellAt (rowAt sheet 22) 2))
                "13 Week Average" = true
        then some (parseRow (rowAt sheet 22)) else none) ∧
    (∀ sheet : List (List CellVal),
      ytdOf sheet =
        if 23 < sheet.length ∧
            (cellAt (rowAt sheet 23) 2 ≠ CellVal.empty
                ∧ strContains (cellToString (cellAt (rowAt sheet 23) 2)) "YTD" = true
              ∨ cellAt (rowAt sheet 23) 1 = CellVal.str "YTD")
        then some (parseRow (rowAt sheet 23)) else none) ∧
    thirteenOf sheetAvgEx = some (parseRow avgRowEx) ∧
    strContains (cellToString (cellAt ytdColRowEx 2)) "YTD" = false ∧
    ytdOf sheetYtdColEx = some (parseRow ytdColRowEx) := by
  refine ⟨fun sheet => ?_, fun sheet => ?_, by decide, by decide, by decide⟩
  · unfold thirteenOf
    by_cases h1 : 22 < sheet.length
    · by_cases h2 : optIncludes (cellAt (rowAt sheet 22) 2) "13 Week Average" = true
      · simp [h1, h2, (optIncludes_iff _ _).mp h2]
      · have h3 : ¬(cellAt (rowAt sheet 22) 2 ≠ CellVal.empty
            ∧ strContains (cellToString (cellAt (rowAt sheet 22) 2))
                "13 Week Average" = true) :=
          fun hc => h2 ((optIncludes_iff _ _).mpr hc)
        simp only [Bool.not_eq_true] at h2
        simp [h1, h2, h3]
    · simp [h1]
  · unfold ytdOf
    by_cases h1 : 23 < sheet.length
    · by_cases hA : optIncludes (cellAt (rowAt sheet 23) 2) "YTD" = true
      · simp [h1, hA, (optIncludes_iff _ _).mp hA]
      · by_cases hB : cellAt (rowAt sheet 23) 1 = CellVal.str "YTD"
        · simp only [Bool.not_eq_true] at hA
          simp [h1, hA, hB]
        · have h3 : ¬(cellAt (rowAt sheet 23) 2 ≠ CellVal.empty
              ∧ strContains (cellToString (cellAt (rowAt sheet 23) 2)) "YTD" = true) :=
            fun hc => hA ((optIncludes_iff _ _).mpr hc)
          simp only [Bool.not_eq_true] at hA
          simp [h1, hA, hB, h3]
    · simp [h1]

/-- Example workbook: a sheet with no weekly rows followed by one with a
single weekly row at grid row 8. -/
def workbookEx : List (String × List (List CellVal)) :=
  [("Empty", ([] : List (List CellVal))),
   ("Data", List.replicate 8 ([] : List CellVal) ++ [weekRowEx])]

/-- C7: the extracted report has exactly one `SheetData` per workbook
sheet, in workbook order, and a sheet with zero qualifying weekly rows
is kept (with an empty weekly sequence) rather than dropped. -/
theorem sheet_preservation :
    (∀ (fileName : String) (workbook : List (String × List (List CellVal))),
      (parseWeeklyReport fileName workbook).sheets.length = workbook.length ∧
      (parseWeeklyReport fileName workbook).sheets.map (fun s => s.sheetName)
        = workbook.map (fun p => p.1)) ∧
    (parseWeeklyReport "f.xlsx" workbookEx).sheets.map
        (fun s => (s.sheetName, s.weeklyData.length))
      = [("Empty", 0), ("Data", 1)] := by
  refine ⟨fun fileName workbook => ⟨?_, ?_⟩, by decide⟩
  · simp [parseWeeklyReport]
  · simp [parseWeeklyReport, parseSheet]

theorem matchWeekAt_digits {cs ds : List Char} (h : matchWeekAt cs = some ds) :
    ds ≠ [] ∧ ds.all Char.isDigit = true := by
  rcases cs with _ | ⟨c1, _ | ⟨c2, _ | ⟨c3, _ | ⟨c4, _ | ⟨c5, rest⟩⟩⟩⟩⟩ <;>
    simp only [matchWeekAt] at h <;>
    try exact Option.noConfusion h
  split_ifs at h with hg he
  injection h with h2
  subst h2
  refine ⟨fun hnil => ?_, List.all_eq_true.mpr fun a ha => List.mem_takeWhile_imp ha⟩
  rw [hnil] at he
  simp at he

theorem findWeekMatch_digits : ∀ {cs ds : List Char}, findWeekMatch cs = some ds →
    ds ≠ [] ∧ ds.all Char.isDigit = true := by
  intro cs
  induction cs with
  | nil => intro ds h; simp [findWeekMatch] at h
  | cons c rest ih =>
      intro ds h
      unfold findWeekMatch at h
      cases hm : matchWeekAt (c :: rest) with
      | some ds2 =>
          rw [hm] at h
          injection h with h2
          subst h2
          exact matchWeekAt_digits hm
      | none =>
          rw [hm] at h
          exact ih h

/-- C9: the week-number label of a file name is the digit run captured
by the first occurrence of case-insensitive `Week` followed by a
space/underscore separator and one or more digits, and is `"Unknown"`
exactly when no such occurrence exists; in particular
`"13WeekReport_Week_37.xlsx"` yields `"37"` and `"report.xlsx"` yields
`"Unknown"` (the general conjunct: any non-`"Unknown"` result is a
nonempty digit run). -/
theorem week_number_extraction :
    weekNumberOf "13WeekReport_Week_37.xlsx" = "37" ∧
    weekNumberOf "report.xlsx" = "Unknown" ∧
    ∀ s : String, weekNumberOf s = "Unknown" ∨
      ((weekNumberOf s).toList ≠ [] ∧
        (weekNumberOf s).toList.all Char.isDigit = true) := by
  refine ⟨by decide, by decide, fun s => ?_⟩
  unfold weekNumberOf
  cases h : findWeekMatch s.toList with
  | none => exact Or.inl rfl
  | some ds =>
      right
      have hd := findWeekMatch_digits h
      exact ⟨hd.1, hd.2⟩

/-- A decoded all-default week record (from an empty row). -/
def zeroWeek : WeekData := parseRow []

/-- A week record with only `totalSales` set. -/
def weekTS (ts : ℚ) : WeekData := { zeroWeek with totalSales := ts }

/-- Classifications of the revenue-trend findings (metric `"Revenue"`)
among a sheet's automatic findings. -/
def revTrendTypes (sheet : SheetData) : List InsightType :=
  ((generateAutoInsights sheet).filter
    (fun i => i.metric == some "Revenue")).map (fun i => i.type)

/-- C5: with fewer than two weekly records the finding list is empty;
with at least two and a nonzero previous-week `totalSales`, a
revenue-trend finding is emitted iff the absolute week-over-week percent
change of `totalSales` strictly exceeds 5 (so exactly 5.0% emits
nothing), classified positive when the change is positive and negative
otherwise. -/
theorem revenue_trend_finding :
    (∀ sheet : SheetData, sheet.weeklyData.length < 2 →
      generateAutoInsights sheet = []) ∧
    (∀ (sheet : SheetData) (l p : WeekData) (rest : List WeekData),
      sheet.weeklyData = l :: p :: rest → p.totalSales ≠ 0 →
      revTrendTypes sheet =
        if 5 < |(l.totalSales - p.totalSales) / p.totalSales * 100| then
          [if 0 < (l.totalSales - p.totalSales) / p.totalSales * 100 then
            InsightType.positive else InsightType.negative]
        else []) := by
  constructor
  · intro sheet h
    rcases hw : sheet.weeklyData with _ | ⟨a, _ | ⟨b, t⟩⟩
    · simp [generateAutoInsights, hw]
    · simp [generateAutoInsights, hw]
    · rw [hw] at h
      simp only [List.length_cons] at h
      omega
  · intro sheet l p rest hw hp
    have hrev : jmul (jdiv (JsNum.num (l.totalSales - p.totalSales))
          (JsNum.num p.totalSales)) (JsNum.num 100)
        = JsNum.num ((l.totalSales - p.totalSales) / p.totalSales * 100) := by
      rw [jdiv_num_num _ _ hp, jmul_num_num]
    unfold revTrendTypes
    simp only [generateAutoInsights, hw, hrev, jabs_num, jgt_num_num,
      List.filter_append, List.map_append,
      apply_ite (List.filter (fun i : Insight => i.metric == some "Revenue")),
      apply_ite (List.map (fun i : Insight => i.type)),
      List.filter_cons, List.filter_nil, List.map_cons, List.map_nil]
    simp

/-- Witness for `revenue_trend_finding`: a 6% week-over-week increase on
a concrete sheet emits exactly one positive revenue finding. -/
def sheetRevUp : SheetData :=
  { sheetName := "CC", weeklyData := [weekTS 106, weekTS 100],
    thirteenWeekAverage := none, ytdData := none }

theorem revenue_trend_finding_witness :
    (sheetRevUp.weeklyData = weekTS 106 :: weekTS 100 :: []
      ∧ (weekTS 100).totalSales ≠ 0) ∧
    revTrendTypes sheetRevUp = [InsightType.positive] := by
  refine ⟨⟨rfl, by decide⟩, ?_⟩
  rw [revenue_trend_finding.2 sheetRevUp (weekTS 106) (weekTS 100) [] rfl (by decide)]
  norm_num [weekTS]

/-- Classifications of the productivity-shift findings (metric
`"Rev/AOA"`) among a sheet's automatic findings. -/
def prodShiftTypes (sheet : SheetData) : List InsightType :=
  ((generateAutoInsights sheet).filter
    (fun i => i.metric == some "Rev/AOA")).map (fun i => i.type)

/-- C6: a productivity-shift finding is never classified negative; and
with two weekly records whose revenue-per-AOA ratios are defined and the
previous ratio nonzero, the finding is emitted iff the absolute percent
change of the ratio strictly exceeds 5, classified positive when the
change is positive and neutral otherwise. -/
theorem mem_ite_nil {a : Insight} {c : Prop} [Decidable c] {l : List Insight}
    (h : a ∈ if c then l else []) : a ∈ l := by
  split at h
  · exact h
  · exact absurd h (List.not_mem_nil a)

theorem ite_pos_neutral_ne_negative (c : Prop) [h : Decidable c] :
    (if c then InsightType.positive else InsightType.neutral)
      ≠ InsightType.negative := by
  split <;> simp

theorem productivity_finding :
    (∀ sheet : SheetData, InsightType.negative ∉ prodShiftTypes sheet) ∧
    (∀ (sheet : SheetData) (l p : WeekData) (rest : List WeekData),
      sheet.weeklyData = l :: p :: rest →
      l.associatesOnAssignment ≠ 0 → p.associatesOnAssignment ≠ 0 →
      p.totalSales ≠ 0 →
      prodShiftTypes sheet =
        if 5 < |(l.totalSales / l.associatesOnAssignment
              - p.totalSales / p.associatesOnAssignment)
            / (p.totalSales / p.associatesOnAssignment) * 100| then
          [if 0 < (l.totalSales / l.associatesOnAssignment
                - p.totalSales / p.associatesOnAssignment)
              / (p.totalSales / p.associatesOnAssignment) * 100 then
            InsightType.positive else InsightType.neutral]
        else []) := by
  constructor
  · intro sheet
    rcases hw : sheet.weeklyData with _ | ⟨a, _ | ⟨b, t⟩⟩
    · simp [prodShiftTypes, generateAutoInsights, hw]
    · simp [prodShiftTypes, generateAutoInsights, hw]
    · intro hmem
      unfold prodShiftTypes at hmem
      rw [List.mem_map] at hmem
      obtain ⟨i, hi, hty⟩ := hmem
      rw [List.mem_filter] at hi
      obtain ⟨hin, hmet⟩ := hi
      rw [beq_iff_eq] at hmet
      simp only [generateAutoInsights, hw] at hin
      rcases List.mem_append.mp hin with hin | hin4
      · rcases List.mem_append.mp hin with hin | hin3
        · rcases List.mem_append.mp hin with hin1 | hin2
          · have h1 := mem_ite_nil hin1
            rw [List.mem_singleton] at h1
            subst h1
            simp at hmet
          · have h2 := mem_ite_nil hin2
            rw [List.mem_singleton] at h2
            subst h2
            simp at hmet
        · have h3 := mem_ite_nil hin3
          rw [List.mem_singleton] at h3
          subst h3
          simp at hmet
      · have h4 := mem_ite_nil hin4
        rw [List.mem_singleton] at h4
        subst h4
        exact absurd hty (ite_pos_neutral_ne_negative _)
  · intro sheet l p rest hw hl hpa hp
    have hl2 : revPerAOA l = JsNum.num (l.totalSales / l.associatesOnAssignment) :=
      jdiv_num_num _ _ hl
    have hp2 : revPerAOA p = JsNum.num (p.totalSales / p.associatesOnAssignment) :=
      jdiv_num_num _ _ hpa
    have hratio : p.totalSales / p.associatesOnAssignment ≠ 0 :=
      div_ne_zero hp hpa
    have heff : jmul (jdiv (jsub (revPerAOA l) (revPerAOA p)) (revPerAOA p))
          (JsNum.num 100)
        = JsNum.num ((l.totalSales / l.associatesOnAssignment
              - p.totalSales / p.associatesOnAssignment)
            / (p.totalSales / p.associatesOnAssignment) * 100) := by
      rw [hl2, hp2, jsub_num_num, jdiv_num_num _ _ hratio, jmul_num_num]
    unfold prodShiftTypes
    simp only [generateAutoInsights, hw, heff, jabs_num, jgt_num_num,
      List.filter_append, List.map_append,
      apply_ite (List.filter (fun i : Insight => i.metric == some "Rev/AOA")),
      apply_ite (List.map (fun i : Insight => i.type)),
      List.filter_cons, List.filter_nil, List.map_cons, List.map_nil]
    simp

/-- Witness for `productivity_finding`: revenue per associate halves
(a −50% shift) on a concrete sheet, emitting one neutral finding. -/
def sheetProdDown : SheetData :=
  { sheetName := "CC"
    weeklyData :=
      [{ zeroWeek with totalSales := 100, associatesOnAssignment := 20 },
       { zeroWeek with totalSales := 100, associatesOnAssignment := 10 }]
    thirteenWeekAverage := none, ytdData := none }

theorem productivity_finding_witness :
    (sheetProdDown.weeklyData
        = { zeroWeek with totalSales := 100, associatesOnAssignment := 20 }
          :: { zeroWeek with totalSales := 100, associatesOnAssignment := 10 } :: []
      ∧ ({ zeroWeek with totalSales := 100, associatesOnAssignment := 20 }
          : WeekData).associatesOnAssignment ≠ 0) ∧
    prodShiftTypes sheetProdDown = [InsightType.neutral] := by
  refine ⟨⟨rfl, by decide⟩, ?_⟩
  rw [productivity_finding.2 sheetProdDown
    { zeroWeek with totalSales := 100, associatesOnAssignment := 20 }
    { zeroWeek with totalSales := 100, associatesOnAssignment := 10 }
    [] rfl (by decide) (by decide) (by decide)]
  norm_num [zeroWeek]

/-- Sheet whose previous week has `totalSales = 0` while the latest week
has positive sales. -/
def sheetPrevZero : SheetData :=
  { sheetName := "CC", weeklyData := [weekTS 100, weekTS 0],
    thirteenWeekAverage := none, ytdData := none }

/-- C1 (counterexample): a sheet whose previous week has
`totalSales = 0` does not get `revenueGrowthRate = 0` — the guard is
only on the presence of the previous week, so the division by zero
yields `Infinity`. -/
theorem growth_rate_not_zero_guarded :
    (calculateInsights sheetPrevZero).map (fun r => r.revenueGrowthRate)
      ≠ some (JsNum.num 0) := by
  have h1 : (calculateInsights sheetPrevZero).map (fun r => r.revenueGrowthRate)
      = some JsNum.posInf := by
    norm_num [calculateInsights, sheetPrevZero, weekTS, zeroWeek, parseRow,
      safeNum, cellAt, jdiv, jmul]
  rw [h1]
  simp

theorem jsFinite_jdiv_zero (a : ℚ) :
    jsFinite (jdiv (JsNum.num a) (JsNum.num 0)) = false := by
  rcases lt_trichotomy a 0 with h | h | h
  · simp [jdiv, h.ne, not_lt.mpr h.le, jsFinite]
  · subst h
    simp [jdiv, jsFinite]
  · simp [jdiv, h.ne', h, jsFinite]

theorem jsFinite_div_mul_zero (a : ℚ) :
    jsFinite (jmul (jdiv (JsNum.num a) (JsNum.num 0)) (JsNum.num 100))
      = false := by
  rcases lt_trichotomy a 0 with h | h | h
  · have h1 : jdiv (JsNum.num a) (JsNum.num 0) = JsNum.negInf := by
      simp [jdiv, h.ne, not_lt.mpr h.le]
    rw [h1]
    norm_num [jmul, jsFinite]
  · subst h
    have h1 : jdiv (JsNum.num 0) (JsNum.num 0) = JsNum.nan := by simp [jdiv]
    rw [h1]
    rfl
  · have h1 : jdiv (JsNum.num a) (JsNum.num 0) = JsNum.posInf := by
      simp [jdiv, h.ne', h]
    rw [h1]
    norm_num [jmul, jsFinite]

/-- C1 (amended): each division guard in the derived metrics is a
presence guard, not a zero guard — `revenueGrowthRate` is 0 exactly when
no previous week exists but non-finite (`Infinity`/`NaN`) when the
previous week exists with `totalSales = 0`; `vsAvgRevenue` is 0 when no
13-week-average record exists but non-finite when that record exists
with `totalSales = 0`; only `revenuePerFTE` is value-guarded (0 whenever
`fullTimeEquivalent ≤ 0`); and the revenue-per-AOA computation is
non-finite whenever `associatesOnAssignment` is 0. -/
theorem derived_metric_guards :
    (∀ (sheet : SheetData) (l : WeekData), sheet.weeklyData = [l] →
      (calculateInsights sheet).map (fun r => r.revenueGrowthRate)
        = some (JsNum.num 0)) ∧
    (∀ (sheet : SheetData) (l p : WeekData) (rest : List WeekData),
      sheet.weeklyData = l :: p :: rest → p.totalSales = 0 →
      (calculateInsights sheet).map (fun r => jsFinite r.revenueGrowthRate)
        = some false) ∧
    (∀ (sheet : SheetData) (l : WeekData) (rest : List WeekData),
      sheet.weeklyData = l :: rest → sheet.thirteenWeekAverage = none →
      (calculateInsights sheet).map (fun r => r.vsAvgRevenue)
        = some (JsNum.num 0)) ∧
    (∀ (sheet : SheetData) (l : WeekData) (rest : List WeekData) (a : WeekData),
      sheet.weeklyData = l :: rest → sheet.thirteenWeekAverage = some a →
      a.totalSales = 0 →
      (calculateInsights sheet).map (fun r => jsFinite r.vsAvgRevenue)
        = some false) ∧
    (∀ (sheet : SheetData) (l : WeekData) (rest : List WeekData),
      sheet.weeklyData = l :: rest → l.fullTimeEquivalent ≤ 0 →
      (calculateInsights sheet).map (fun r => r.revenuePerFTE) = some 0) ∧
    (∀ w : WeekData, w.associatesOnAssignment = 0 →
      jsFinite (revPerAOA w) = false) := by
  refine ⟨?_, ?_, ?_, ?_, ?_, ?_⟩
  · intro sheet l h
    simp [calculateInsights, h]
  · intro sheet l p rest h hp
    simp only [calculateInsights, h, hp, sub_zero, Option.map_some']
    rw [Option.some_inj]
    exact jsFinite_div_mul_zero l.totalSales
  · intro sheet l rest h ha
    simp [calculateInsights, h, ha]
  · intro sheet l rest a h ha hz
    simp only [calculateInsights, h, ha, hz, sub_zero, Option.map_some']
    rw [Option.some_inj]
    exact jsFinite_div_mul_zero l.totalSales
  · intro sheet l rest h hfte
    simp [calculateInsights, h, not_lt.mpr hfte]
  · intro w hw
    unfold revPerAOA
    rw [hw]
    exact jsFinite_jdiv_zero w.totalSales

/-- Witness for `derived_metric_guards`: the concrete sheet with a
zero-sales previous week produces a non-finite growth rate. -/
theorem derived_metric_guards_witness :
    (sheetPrevZero.weeklyData = weekTS 100 :: weekTS 0 :: [] ∧
      (weekTS 0).totalSales = 0) ∧
    (calculateInsights sheetPrevZero).map (fun r => jsFinite r.revenueGrowthRate)
      = some false :=
  ⟨⟨rfl, rfl⟩,
    derived_metric_guards.2.1 sheetPrevZero (weekTS 100) (weekTS 0) [] rfl rfl⟩

theorem list_sum_of_const (qs : List ℚ) (c : ℚ) (h : ∀ x ∈ qs, x = c) :
    qs.sum = (qs.length : ℚ) * c := by
  induction qs with
  | nil => simp
  | cons a t ih =>
      rw [List.sum_cons, h a (by simp), ih (fun x hx => h x (by simp [hx])),
        List.length_cons]
      push_cast
      ring

/-- Sheet with two weeks whose `totalSales` mean is negative while their
spread is nonzero. -/
def sheetNegMean : SheetData :=
  { sheetName := "CC", weeklyData := [weekTS 100, weekTS (-300)],
    thirteenWeekAverage := none, ytdData := none }

/-- C8 (counterexample): volatility does not equal population standard
deviation over mean times 100 on every sheet — here the mean is −100 and
the population variance 40000, so the formula gives −200 while the
code's `avgRevenue > 0` guard gives 0. -/
theorem volatility_not_cv_on_negative_mean :
    volatility sheetNegMean
      ≠ Real.sqrt (varianceRevenueOf sheetNegMean : ℝ)
          / (avgRevenueOf sheetNegMean : ℝ) * 100 := by
  have havg : avgRevenueOf sheetNegMean = -100 := by
    norm_num [avgRevenueOf, trendOf, sheetNegMean, weekTS, zeroWeek, parseRow,
      safeNum, cellAt]
  have hvar : varianceRevenueOf sheetNegMean = 40000 := by
    norm_num [varianceRevenueOf, avgRevenueOf, trendOf, sheetNegMean, weekTS,
      zeroWeek, parseRow, safeNum, cellAt]
  have hne : sheetNegMean.weeklyData.isEmpty = false := rfl
  have hvol : volatility sheetNegMean = 0 := by
    unfold volatility
    rw [hne, havg]
    norm_num
  rw [hvol, hvar, havg]
  have hs : Real.sqrt ((40000 : ℚ) : ℝ) = 200 := by
    rw [show ((40000 : ℚ) : ℝ) = (200 : ℝ) ^ 2 by norm_num]
    exact Real.sqrt_sq (by norm_num)
  rw [hs]
  norm_num

/-- C8 (amended): volatility equals population standard deviation of
`totalSales` over the up-to-13-week trend window divided by the mean,
times 100, only when the mean is positive; whenever the mean is ≤ 0 —
in particular when it is 0, and with no division error — the guard
yields 0; and a constant `totalSales` series yields 0. -/
theorem volatility_characterization :
    ∀ (sheet : SheetData) (l : WeekData) (rest : List WeekData),
      sheet.weeklyData = l :: rest →
      ((0 < avgRevenueOf sheet →
          volatility sheet
            = Real.sqrt (varianceRevenueOf sheet : ℝ)
                / (avgRevenueOf sheet : ℝ) * 100) ∧
       (avgRevenueOf sheet ≤ 0 → volatility sheet = 0) ∧
       (avgRevenueOf sheet = 0 → volatility sheet = 0) ∧
       (∀ c : ℚ, (∀ w ∈ trendOf sheet, w.totalSales = c) →
          volatility sheet = 0)) := by
  intro sheet l rest h
  have hne : sheet.weeklyData.isEmpty = false := by rw [h]; rfl
  have hvol : volatility sheet
      = if 0 < avgRevenueOf sheet then
          Real.sqrt (varianceRevenueOf sheet : ℝ)
            / (avgRevenueOf sheet : ℝ) * 100
        else 0 := by
    unfold volatility
    rw [hne]
    simp
  refine ⟨fun hpos => ?_, fun hle => ?_, fun heq => ?_, fun c hc => ?_⟩
  · rw [hvol, if_pos hpos]
  · rw [hvol, if_neg (not_lt.mpr hle)]
  · rw [hvol, if_neg (by rw [heq]; exact lt_irrefl 0)]
  · have hlen : trendOf sheet ≠ [] := by
      rw [trendOf, h]
      simp
    have hlenpos : 0 < (trendOf sheet).length := List.length_pos.mpr hlen
    have hmap : ∀ x ∈ (trendOf sheet).map (fun w => w.totalSales), x = c := by
      intro x hx
      rw [List.mem_map] at hx
      obtain ⟨w, hw2, rfl⟩ := hx
      exact hc w hw2
    have havg : avgRevenueOf sheet = c := by
      rw [avgRevenueOf, list_sum_of_const _ c hmap, List.length_map]
      exact mul_div_cancel_left₀ c (Nat.cast_ne_zero.mpr hlenpos.ne')
    have hvar : varianceRevenueOf sheet = 0 := by
      rw [varianceRevenueOf]
      have hz : ((trendOf sheet).map
          (fun w => (w.totalSales - avgRevenueOf sheet) ^ 2)).sum = 0 := by
        apply List.sum_eq_zero
        intro x hx
        rw [List.mem_map] at hx
        obtain ⟨w, hw2, rfl⟩ := hx
        rw [hc w hw2, havg, sub_self]
        ring
      rw [hz, zero_div]
    rw [hvol]
    split_ifs with hpos
    · rw [hvar]
      simp
    · rfl

/-- Sheet whose three weeks all have the same `totalSales`. -/
def sheetConstEx : SheetData :=
  { sheetName := "CC", weeklyData := [weekTS 500, weekTS 500, weekTS 500],
    thirteenWeekAverage := none, ytdData := none }

/-- Witness for `volatility_characterization`: a constant revenue series
has volatility 0. -/
theorem volatility_characterization_witness :
    (sheetConstEx.weeklyData = weekTS 500 :: [weekTS 500, weekTS 500] ∧
      ∀ w ∈ trendOf sheetConstEx, w.totalSales = 500) ∧
    volatility sheetConstEx = 0 := by
  have hconst : ∀ w ∈ trendOf sheetConstEx, w.totalSales = 500 := by
    intro w hw
    have : trendOf sheetConstEx = [weekTS 500, weekTS 500, weekTS 500] := rfl
    rw [this] at hw
    simp only [List.mem_cons, List.not_mem_nil, or_false] at hw
    rcases hw with h | h | h <;> rw [h] <;> rfl
  exact ⟨⟨rfl, hconst⟩,
    (volatility_characterization sheetConstEx (weekTS 500)
      [weekTS 500, weekTS 500] rfl).2.2.2 500 hconst⟩
